import Mathlib

/-!
Shallow embedding of the NexenPlayer video-player component
(react-native-nexen-player, src/components/NexenPlayer.tsx).

The component is a callback-driven UI state machine.  We model its React
state (useState hooks and the mutable refs the handlers read) as a record
`PlayerState`, and each event handler as a pure function
`PlayerState → PlayerState × List Effect`, where `Effect` records the
calls the handler makes into the outside world (the native video element,
the platform module, the host application's callback props, animations and
timers).  Numbers flowing through the handlers are JS numbers used as
integers (volume / brightness percentages, seconds, indices); we embed
them as `Int`, and values passed onward after a division by 100 as `Rat`.
-/

/-- `FORWARD_OR_REWIND_DURATION` constant of the source. -/
def FORWARD_OR_REWIND_DURATION : Int := 10

/-- `ControlHideMode` type of the source. -/
inductive ControlHideMode where
  | auto
  | touch
deriving DecidableEq, Repr

/-- `LayoutMode` type of the source. -/
inductive LayoutMode where
  | basic
  | intermediate
  | advanced
deriving DecidableEq, Repr

/-- The three defined values of the source's `ResizeMode` type
(`'stretch' | 'contain' | 'cover' | undefined`); the `undefined` case is
represented by `Option ResizeMode` at use sites. -/
inductive ResizeMode where
  | stretch
  | contain
  | cover
deriving DecidableEq, Repr

/-- `PlaybackSpeed` is a union of string literals in the source. -/
abbrev PlaybackSpeed := String

/-- One entry of the source's `PlayListItem` (its `itemSource` is a media
source descriptor; only the item count matters to the handlers we model,
so we keep the source URI as a string). -/
structure PlayListItem where
  itemSource : String
deriving DecidableEq, Repr

/-- `PlayList` type of the source: both fields optional. -/
structure PlayList where
  items : Option (List PlayListItem) := none
  currentIndex : Option Int := none
deriving DecidableEq, Repr

/-- `NexenConfig` type of the source: an all-optional option bag. -/
structure NexenConfig where
  loaderText : Option String := none
  errorText : Option String := none
  doubleTapTime : Option Int := none
  controlTimeout : Option Int := none
  controlHideMode : Option ControlHideMode := none
  layoutMode : Option LayoutMode := none
  posterResizeMode : Option ResizeMode := none
  resizeMode : Option ResizeMode := none
  volume : Option Int := none
  brightness : Option Int := none
  playbackSpeed : Option PlaybackSpeed := none
  muted : Option Bool := none
  repeatMode : Option Bool := none
  autoPlay : Option Bool := none
  index : Option Int := none
  activeIndex : Option Int := none
  optimize : Option Bool := none
  disableOnScreenPlayButton : Option Bool := none
  disableBack : Option Bool := none
  disableResizeMode : Option Bool := none
  disableVolume : Option Bool := none
  disableMore : Option Bool := none
  disableSkip : Option Bool := none
  disableStop : Option Bool := none
  disableFullscreen : Option Bool := none
  disablePlayList : Option Bool := none
  disableSubtitle : Option Bool := none
  disableAirplay : Option Bool := none
deriving DecidableEq, Repr

/-- JS object-spread on one optional field: a key present in the later
object overrides the earlier one, an absent key keeps it. -/
def mergeField {α : Type} (dflt host : Option α) : Option α :=
  match host with
  | some v => some v
  | none => dflt

/-- The default-value object that `{...defaults, ...playerConfig}` starts
from when `nexenConfig` state is initialised (source lines 284-309). -/
def defaultNexenConfig : NexenConfig where
  loaderText := some "Loading..."
  errorText := some "Error...!"
  doubleTapTime := some 300
  controlTimeout := some 5000
  controlHideMode := some .touch
  layoutMode := some .intermediate
  posterResizeMode := some .cover
  resizeMode := some .contain
  volume := some 80
  brightness := some 25
  playbackSpeed := some "1.0"
  muted := some false
  repeatMode := some false
  autoPlay := some false
  disableOnScreenPlayButton := some false
  disableBack := some false
  disableResizeMode := some false
  disableMore := some false
  disableSkip := some false
  disableStop := some false
  disableVolume := some false
  disableFullscreen := some false
  disablePlayList := some false
  disableSubtitle := some false

/-- `{...defaults, ...playerConfig}`: field-wise JS spread. -/
def mergeConfig (dflt host : NexenConfig) : NexenConfig where
  loaderText := mergeField dflt.loaderText host.loaderText
  errorText := mergeField dflt.errorText host.errorText
  doubleTapTime := mergeField dflt.doubleTapTime host.doubleTapTime
  controlTimeout := mergeField dflt.controlTimeout host.controlTimeout
  controlHideMode := mergeField dflt.controlHideMode host.controlHideMode
  layoutMode := mergeField dflt.layoutMode host.layoutMode
  posterResizeMode := mergeField dflt.posterResizeMode host.posterResizeMode
  resizeMode := mergeField dflt.resizeMode host.resizeMode
  volume := mergeField dflt.volume host.volume
  brightness := mergeField dflt.brightness host.brightness
  playbackSpeed := mergeField dflt.playbackSpeed host.playbackSpeed
  muted := mergeField dflt.muted host.muted
  repeatMode := mergeField dflt.repeatMode host.repeatMode
  autoPlay := mergeField dflt.autoPlay host.autoPlay
  index := mergeField dflt.index host.index
  activeIndex := mergeField dflt.activeIndex host.activeIndex
  optimize := mergeField dflt.optimize host.optimize
  disableOnScreenPlayButton :=
    mergeField dflt.disableOnScreenPlayButton host.disableOnScreenPlayButton
  disableBack := mergeField dflt.disableBack host.disableBack
  disableResizeMode := mergeField dflt.disableResizeMode host.disableResizeMode
  disableVolume := mergeField dflt.disableVolume host.disableVolume
  disableMore := mergeField dflt.disableMore host.disableMore
  disableSkip := mergeField dflt.disableSkip host.disableSkip
  disableStop := mergeField dflt.disableStop host.disableStop
  disableFullscreen := mergeField dflt.disableFullscreen host.disableFullscreen
  disablePlayList := mergeField dflt.disablePlayList host.disablePlayList
  disableSubtitle := mergeField dflt.disableSubtitle host.disableSubtitle
  disableAirplay := mergeField dflt.disableAirplay host.disableAirplay

/-- Initial `nexenConfig` state: `{...defaults, ...playerConfig}`. -/
def initialNexenConfig (playerConfig : NexenConfig) : NexenConfig :=
  mergeConfig defaultNexenConfig playerConfig

/-- Initial `paused` state: `!nexenConfig?.autoPlay` (JS truthiness: an
absent flag is falsy, so its negation is `true`). -/
def initialPaused (cfg : NexenConfig) : Bool :=
  !(cfg.autoPlay.getD false)

/-- `trackInfo` state record. -/
structure TrackInfo where
  trackTime : Int
  totalTrackTime : Int
  cachedTrackTime : Int
deriving DecidableEq, Repr

/-- Calls the handlers make into the outside world: the native video
element (`videoRef`), the platform module (`NexenPlayerModule`), icon/tip
views, animations, timers, and the host application's callback props. -/
inductive Effect where
  | seekVideo (time : Int)
  | seekVideoTol (time : Int) (tolerance : Int)
  | setNativeVolume (v : Rat)
  | setSystemBrightness (v : Rat)
  | updateVolumeIcon (value : Int)
  | updateBrightnessIcon (value : Int)
  | updateIconTagViewAll
  | updateTipView (text : String)
  | onVolumeUpdate (v : Int)
  | onBrightnessUpdate (v : Int)
  | onSkipNext (index : Int)
  | onSkipBack (index : Int)
  | onFullScreenModeUpdate (fullScreen : Bool) (index : Option Int)
  | onStop (index : Option Int)
  | onError (msg : String)
  | controlShowAnimation
  | controlHideAnimation
  | moreControlHide
  | speedControlHide
  | trackControlHide
  | playlistControlHide
  | scheduleHideTimer (delayMs : Int)
  | clearHideTimer
  | removeBackHandler
  | removeAppStateSubscription
deriving DecidableEq, Repr

/-- The React state of `NexenPlayer` together with the mutable refs the
modelled handlers read or write.  `controlTimeoutRefSet` models
`controlTimeoutRef.current !== null` (the ref keeps its handle after
`clearTimeout`); `pendingHideTimer` tracks a scheduled, not-yet-cancelled
auto-hide timeout and its delay. -/
structure PlayerState where
  showControl : Bool
  showSpeedControl : Bool
  showTrackControl : Bool
  showPlaylistControl : Bool
  showMoreControl : Bool
  loading : Bool
  error : Bool
  locked : Bool
  nexenConfig : NexenConfig
  fullScreen : Bool
  paused : Bool
  trackInfo : TrackInfo
  playList : Option PlayList
  gestureEnabled : Bool
  isStopped : Bool
  isEnded : Bool
  isFullscreenRef : Bool
  controlTimeoutRefSet : Bool
  pendingHideTimer : Option Int
deriving DecidableEq, Repr

/-- Gesture kinds delivered by the gesture view. -/
inductive GestureEventType where
  | track
  | volume
  | brightness
deriving DecidableEq, Repr

/-- Tap kinds delivered by the gesture view. -/
inductive TapEventType where
  | singleTap
  | doubleTapLeft
  | doubleTapRight
  | doubleTapMiddle
deriving DecidableEq, Repr

/-- `nexenConfig?.optimize ? nexenConfig.index : playList?.currentIndex`:
the index most host callbacks receive. -/
def callbackIndex (s : PlayerState) : Option Int :=
  if s.nexenConfig.optimize = some true then s.nexenConfig.index
  else s.playList.bind PlayList.currentIndex

/-- `showMainControl`: `setShowControl(true)`. -/
def showMainControl (s : PlayerState) : PlayerState × List Effect :=
  ({ s with showControl := true }, [])

/-- `hideMainControl`: hide animation whose end callback performs
`setShowControl(false)`. -/
def hideMainControl (s : PlayerState) : PlayerState × List Effect :=
  ({ s with showControl := false }, [Effect.controlHideAnimation])

/-- `setControlTimeout`: `setTimeout(() => hideMainControl(), controlTimeout)`
stored into `controlTimeoutRef` (an absent delay is JS `undefined`, which
`setTimeout` treats as 0). -/
def setControlTimeout (s : PlayerState) : PlayerState × List Effect :=
  let delay := s.nexenConfig.controlTimeout.getD 0
  ({ s with controlTimeoutRefSet := true, pendingHideTimer := some delay },
   [Effect.scheduleHideTimer delay])

/-- The callback `setControlTimeout` hands to `setTimeout`. -/
def controlTimeoutFire (s : PlayerState) : PlayerState × List Effect :=
  hideMainControl s

/-- `clearControlTimeout`: `clearTimeout` when the ref holds a handle. -/
def clearControlTimeout (s : PlayerState) : PlayerState × List Effect :=
  if s.controlTimeoutRefSet then
    ({ s with pendingHideTimer := none }, [Effect.clearHideTimer])
  else (s, [])

/-- `handleDoubleTapPlayPause`: toggle `paused` with a tip. -/
def handleDoubleTapPlayPause (s : PlayerState) : PlayerState × List Effect :=
  if s.paused then
    ({ s with paused := false }, [Effect.updateTipView "播放"])
  else
    ({ s with paused := true }, [Effect.updateTipView "暂停"])

/-- `_onTapDetected` (source lines 525-580).  A single tap first dismisses
whichever auxiliary panel is open (more options, speed, track, playlist),
re-enabling gestures; only when none is open does it toggle the main
controls.  A side double tap with a truthy value seeks; a middle double
tap toggles play/pause. -/
def onTapDetected (event : TapEventType) (value : Option Int)
    (s : PlayerState) : PlayerState × List Effect :=
  match event with
  | .singleTap =>
    if s.showMoreControl then
      ({ s with showMoreControl := false, gestureEnabled := true },
       [Effect.moreControlHide])
    else if s.showSpeedControl then
      ({ s with showSpeedControl := false, gestureEnabled := true },
       [Effect.speedControlHide])
    else if s.showTrackControl then
      ({ s with showTrackControl := false, gestureEnabled := true },
       [Effect.trackControlHide])
    else if s.showPlaylistControl then
      ({ s with showPlaylistControl := false, gestureEnabled := true },
       [Effect.playlistControlHide])
    else if s.showControl then hideMainControl s
    else showMainControl s
  | .doubleTapLeft | .doubleTapRight =>
    match value with
    | some v =>
      if v = 0 then (s, [])
      else
        ({ s with trackInfo := { s.trackInfo with trackTime := v } },
         [Effect.seekVideo v])
    | none => (s, [])
  | .doubleTapMiddle => handleDoubleTapPlayPause s

/-- `_onGestureMove` (source lines 582-619). -/
def onGestureMove (event : GestureEventType) (value : Int)
    (s : PlayerState) : PlayerState × List Effect :=
  match event with
  | .track =>
    ({ s with trackInfo := { s.trackInfo with trackTime := value } },
     [Effect.seekVideo value])
  | .volume =>
    (s, [Effect.updateVolumeIcon value,
         Effect.setNativeVolume ((value : Rat) / 100)])
  | .brightness =>
    (s, [Effect.updateBrightnessIcon value,
         Effect.setSystemBrightness ((value : Rat) / 100)])

/-- `_onGestureEnd` (source lines 621-672). -/
def onGestureEnd (event : GestureEventType) (value : Int)
    (s : PlayerState) : PlayerState × List Effect :=
  match event with
  | .track =>
    ({ s with trackInfo := { s.trackInfo with trackTime := value } },
     [Effect.seekVideo value])
  | .volume =>
    ({ s with nexenConfig := { s.nexenConfig with volume := some value } },
     [Effect.updateVolumeIcon value,
      Effect.setNativeVolume ((value : Rat) / 100),
      Effect.onVolumeUpdate value])
  | .brightness =>
    ({ s with nexenConfig := { s.nexenConfig with brightness := some value } },
     [Effect.updateBrightnessIcon value,
      Effect.setSystemBrightness ((value : Rat) / 100),
      Effect.onBrightnessUpdate value])

/-- The `useEffect` on `[showControl, fullScreen, locked, nexenConfig]`
(source lines 814-867): sync `isFullscreen` ref, run show animation and
arm the auto-hide timer when the controls are shown under
`controlHideMode == 'auto'`, clear it when they are hidden under `'auto'`,
and refresh the tag-view icons in `'advanced'` layout. -/
def showControlEffectStep (s : PlayerState) : PlayerState × List Effect :=
  let s := { s with isFullscreenRef := s.fullScreen }
  let (s1, e1) :=
    if s.showControl then
      if s.nexenConfig.controlHideMode = some ControlHideMode.auto then
        let (s2, e2) := setControlTimeout s
        (s2, Effect.controlShowAnimation :: e2)
      else (s, [Effect.controlShowAnimation])
    else
      if s.nexenConfig.controlHideMode = some ControlHideMode.auto then
        clearControlTimeout s
      else (s, [])
  if s1.nexenConfig.layoutMode = some LayoutMode.advanced then
    (s1, e1 ++ [Effect.updateIconTagViewAll])
  else (s1, e1)

/-- The cleanup returned by the mount `useEffect` (source lines 986-992):
remove the back handler and app-state subscription, and clear the
auto-hide timeout when its ref holds a handle. -/
def unmountCleanup (s : PlayerState) : PlayerState × List Effect :=
  if s.controlTimeoutRefSet then
    ({ s with pendingHideTimer := none },
     [Effect.removeBackHandler, Effect.removeAppStateSubscription,
      Effect.clearHideTimer])
  else
    (s, [Effect.removeBackHandler, Effect.removeAppStateSubscription])

/-- Shape of the native error object `_onError` receives. -/
structure LoadErrorDetail where
  errorString : String
deriving DecidableEq, Repr

/-- `LoadError` as consumed by `_onError` (`error.error.errorString`). -/
structure LoadError where
  error : LoadErrorDetail
deriving DecidableEq, Repr

/-- `_onError` (source lines 1505-1508): `setError(true)` and pass the
native error string to the host's optional `onError` callback. -/
def onErrorHandler (e : LoadError) (s : PlayerState) :
    PlayerState × List Effect :=
  ({ s with error := true }, [Effect.onError e.error.errorString])

/-- `_onRewind` (source lines 1239-1248). -/
def onRewind (s : PlayerState) : PlayerState × List Effect :=
  let time := s.trackInfo.trackTime - FORWARD_OR_REWIND_DURATION
  ({ s with trackInfo := { s.trackInfo with trackTime := time } },
   [Effect.seekVideo time])

/-- `_onFastForward` (source lines 1250-1259). -/
def onFastForward (s : PlayerState) : PlayerState × List Effect :=
  let time := s.trackInfo.trackTime + FORWARD_OR_REWIND_DURATION
  ({ s with trackInfo := { s.trackInfo with trackTime := time } },
   [Effect.seekVideo time])

/-- `_onSkipNext` (source lines 1261-1274).  The JS guard
`playList.currentIndex! < playList.items?.length! - 1` is false whenever
either field is `undefined` (a comparison against `NaN`). -/
def onSkipNextHandler (s : PlayerState) : PlayerState × List Effect :=
  match s.playList with
  | none => (s, [])
  | some pl =>
    match pl.currentIndex, pl.items with
    | some ci, some items =>
      if ci < (items.length : Int) - 1 then
        ({ s with playList := some { pl with currentIndex := some (ci + 1) } },
         [Effect.onSkipNext (ci + 1)])
      else (s, [])
    | _, _ => (s, [])

/-- `_onSkipBack` (source lines 1276-1289).  The JS guard
`playList.currentIndex! > 0` is false when the index is `undefined`. -/
def onSkipBackHandler (s : PlayerState) : PlayerState × List Effect :=
  match s.playList with
  | none => (s, [])
  | some pl =>
    match pl.currentIndex with
    | some ci =>
      if ci > 0 then
        ({ s with playList := some { pl with currentIndex := some (ci - 1) } },
         [Effect.onSkipBack (ci - 1)])
      else (s, [])
    | none => (s, [])

/-- `handleStopPlayback` (source lines 1130-1148). -/
def handleStopPlayback (s : PlayerState) : PlayerState × List Effect :=
  let s := { s with isStopped := true }
  if s.paused then
    (s, [Effect.seekVideoTol 0 0, Effect.onStop (callbackIndex s)])
  else
    if s.isEnded && s.nexenConfig.repeatMode.getD false then
      ({ s with paused := false },
       [Effect.seekVideoTol 0 0, Effect.onStop (callbackIndex s)])
    else
      ({ s with paused := true }, [])

/-- `RESIZE_MODE_VALUES` constant of the source. -/
def RESIZE_MODE_VALUES : List ResizeMode :=
  [ResizeMode.contain, ResizeMode.cover, ResizeMode.stretch]

/-- JS `Array.prototype.indexOf` with strict equality: -1 when the value
(possibly `undefined`) is not an element. -/
def jsIndexOf {α : Type} [DecidableEq α] (l : List α) (x : Option α) : Int :=
  match l with
  | [] => -1
  | a :: rest =>
    if some a = x then 0
    else
      let r := jsIndexOf rest x
      if r = -1 then -1 else r + 1

/-- JS array indexing `l[i]`: `undefined` out of range. -/
def jsGetElem {α : Type} (l : List α) (i : Int) : Option α :=
  if 0 ≤ i then l[i.toNat]? else none

/-- `handleResizeMode` (source lines 1169-1186): the value stored into
`nexenConfig.resizeMode` by the aspect-ratio toggle. -/
def handleResizeMode (resizeMode : Option ResizeMode) : Option ResizeMode :=
  let currentIndex := jsIndexOf RESIZE_MODE_VALUES resizeMode
  if currentIndex < (RESIZE_MODE_VALUES.length : Int) - 1 then
    jsGetElem RESIZE_MODE_VALUES (currentIndex + 1)
  else
    jsGetElem RESIZE_MODE_VALUES 0

/-- The `NexenPlayerRef` type of the source (lines 160-167): exactly six
imperative methods, here as transformers over the player state. -/
structure NexenPlayerRef where
  play : PlayerState → PlayerState × List Effect
  pause : PlayerState → PlayerState × List Effect
  stop : PlayerState → PlayerState × List Effect
  skipNext : PlayerState → PlayerState × List Effect
  skipBack : PlayerState → PlayerState × List Effect
  setFullScreenMode : Bool → PlayerState → PlayerState × List Effect

/-- The object `useImperativeHandle` exposes (source lines 365-388). -/
def nexenPlayerRef : NexenPlayerRef where
  play s := ({ s with paused := false }, [])
  pause s := ({ s with paused := true }, [])
  stop := handleStopPlayback
  skipNext := onSkipNextHandler
  skipBack := onSkipBackHandler
  setFullScreenMode f s :=
    ({ s with fullScreen := f },
     [Effect.onFullScreenModeUpdate f (callbackIndex s)])

/-- The props handed to the external `Video` element, restricted to the
scalar configuration both render branches set (source lines 1538-1600). -/
structure VideoProps where
  paused : Bool
  resizeMode : Option ResizeMode
  muted : Option Bool
  volume : Rat
  repeatProp : Option Bool
  progressUpdateInterval : Int
  minLoadRetryCount : Option Int
  mixWithOthers : Option String
  ignoreSilentSwitch : Option String
  pictureInPicture : Bool
  playInBackground : Bool
  allowsExternalPlayback : Bool
  disableFocus : Option Bool
  playWhenInactive : Bool
deriving DecidableEq, Repr

/-- The `Video` props of the optimized render branch
(`minLoadRetryCount`, `mixWithOthers`, `ignoreSilentSwitch` and
`disableFocus` are commented out there, i.e. left unset). -/
def optimizedVideoProps (s : PlayerState) : VideoProps where
  paused := s.paused
  resizeMode := s.nexenConfig.resizeMode
  muted := s.nexenConfig.muted
  volume := ((s.nexenConfig.volume.getD 0 : Int) : Rat) / 100
  repeatProp := s.nexenConfig.repeatMode
  progressUpdateInterval := 1000
  minLoadRetryCount := none
  mixWithOthers := none
  ignoreSilentSwitch := none
  pictureInPicture := true
  playInBackground := true
  allowsExternalPlayback := true
  disableFocus := none
  playWhenInactive := true

/-- The `Video` props of the non-optimized render branch, including
`minLoadRetryCount={1000}`. -/
def standardVideoProps (s : PlayerState) : VideoProps where
  paused := s.paused
  resizeMode := s.nexenConfig.resizeMode
  muted := s.nexenConfig.muted
  volume := ((s.nexenConfig.volume.getD 0 : Int) : Rat) / 100
  repeatProp := s.nexenConfig.repeatMode
  progressUpdateInterval := 1000
  minLoadRetryCount := some 1000
  mixWithOthers := some "duck"
  ignoreSilentSwitch := some "ignore"
  pictureInPicture := true
  playInBackground := true
  allowsExternalPlayback := true
  disableFocus := some true
  playWhenInactive := true

/-- The render tree's choice of `Video` element (source lines 1538-1600):
`nexenConfig?.optimize ? (index === activeIndex ? <Video .../> : null)
: <Video .../>`. -/
def renderVideo (s : PlayerState) : Option VideoProps :=
  if s.nexenConfig.optimize.getD false then
    if s.nexenConfig.index = s.nexenConfig.activeIndex then
      some (optimizedVideoProps s)
    else none
  else
    some (standardVideoProps s)

/-- A quiescent player state: freshly mounted with an omitted host config
(all defaults), nothing shown, paused, at time zero, no playlist. -/
def baseState : PlayerState where
  showControl := false
  showSpeedControl := false
  showTrackControl := false
  showPlaylistControl := false
  showMoreControl := false
  loading := false
  error := false
  locked := false
  nexenConfig := initialNexenConfig {}
  fullScreen := false
  paused := true
  trackInfo := ⟨0, 0, 0⟩
  playList := none
  gestureEnabled := false
  isStopped := false
  isEnded := false
  isFullscreenRef := false
  controlTimeoutRefSet := false
  pendingHideTimer := none

/-- A state with the more-options panel open and main controls hidden. -/
def panelOpenState : PlayerState :=
  { baseState with showMoreControl := true }

/-- Controls just shown under `controlHideMode: 'auto'`. -/
def autoShownState : PlayerState :=
  { baseState with
    showControl := true,
    nexenConfig :=
      { baseState.nexenConfig with controlHideMode := some .auto } }

/-- Controls hidden under `'auto'` with a timer handle in the ref. -/
def autoHiddenState : PlayerState :=
  { baseState with
    nexenConfig :=
      { baseState.nexenConfig with controlHideMode := some .auto },
    controlTimeoutRefSet := true,
    pendingHideTimer := some 5000 }

/-- A two-item playlist positioned at its first item. -/
def twoItemPlaylistState : PlayerState :=
  { baseState with
    playList := some
      { items := some [⟨"a.mp4"⟩, ⟨"b.mp4"⟩], currentIndex := some 0 } }

/-- A playing position three seconds in, on a five-second track. -/
def nearStartState : PlayerState :=
  { baseState with trackInfo := ⟨3, 5, 0⟩ }

/-- Helper: JS spread of an optional field over a present default. -/
theorem mergeField_some {α : Type} (d : α) (o : Option α) :
    mergeField (some d) o = some (o.getD d) := by
  cases o <;> rfl

/-- C1: a drag gesture ending with value v: a VOLUME end sets the native
volume prop to v/100, records v in the config's volume field and calls
onVolumeUpdate with v; a BRIGHTNESS end records v in the config's
brightness field, sets the system brightness to v/100 and calls
onBrightnessUpdate with v; a TRACK end seeks the video to v and sets the
displayed trackTime to v. -/
theorem gestureEnd_routes_volume_brightness_track
    (v : Int) (s : PlayerState) :
    (onGestureEnd GestureEventType.volume v s).1.nexenConfig.volume
      = some v ∧
    (onGestureEnd GestureEventType.volume v s).2 =
      [Effect.updateVolumeIcon v,
       Effect.setNativeVolume ((v : Rat) / 100),
       Effect.onVolumeUpdate v] ∧
    (onGestureEnd GestureEventType.brightness v s).1.nexenConfig.brightness
      = some v ∧
    (onGestureEnd GestureEventType.brightness v s).2 =
      [Effect.updateBrightnessIcon v,
       Effect.setSystemBrightness ((v : Rat) / 100),
       Effect.onBrightnessUpdate v] ∧
    (onGestureEnd GestureEventType.track v s).1.trackInfo.trackTime = v ∧
    (onGestureEnd GestureEventType.track v s).2 = [Effect.seekVideo v] :=
  ⟨rfl, rfl, rfl, rfl, rfl, rfl⟩

/-- C2 counterexample: with the more-options panel open and the main
controls hidden, a single tap does not show the main controls (it
dismisses the panel instead), refuting the unconditional toggle. -/
theorem singleTap_no_toggle_with_panel_open :
    panelOpenState.showControl = false ∧
    (onTapDetected TapEventType.singleTap none panelOpenState).1.showControl
      = false := by
  constructor <;> rfl

/-- C2 (amended): when no auxiliary panel (more options, speed, track,
playlist) is showing, a single tap toggles main-control visibility:
shown becomes hidden and hidden becomes shown. -/
theorem singleTap_toggles_controls_when_no_panel
    (value : Option Int) (s : PlayerState)
    (h1 : s.showMoreControl = false) (h2 : s.showSpeedControl = false)
    (h3 : s.showTrackControl = false) (h4 : s.showPlaylistControl = false) :
    (onTapDetected TapEventType.singleTap value s).1.showControl
      = !s.showControl := by
  cases hc : s.showControl <;>
    simp [onTapDetected, h1, h2, h3, h4, hc, hideMainControl, showMainControl]

/-- C2 witness: at the quiescent state (controls hidden, no panel open) a
single tap shows the main controls. -/
theorem singleTap_toggles_controls_witness :
    (onTapDetected TapEventType.singleTap none baseState).1.showControl
      = !baseState.showControl :=
  singleTap_toggles_controls_when_no_panel none baseState rfl rfl rfl rfl

/-- C3: on a native load error the handler sets the displayed error state
to true, invokes the host's onError callback with the native error string,
and changes nothing else. -/
theorem onError_surfaces_error_only (s : PlayerState) (e : LoadError) :
    (onErrorHandler e s).1 = { s with error := true } ∧
    (onErrorHandler e s).2 = [Effect.onError e.error.errorString] :=
  ⟨rfl, rfl⟩

/-- C4 counterexample: the non-optimized render branch (the one a default
config takes) hands the native video element
`minLoadRetryCount = 1000`, i.e. it does configure retry behaviour. -/
theorem video_configures_minLoadRetryCount :
    (renderVideo baseState).map VideoProps.minLoadRetryCount
      = some (some 1000) ∧
    (some (1000 : Int) : Option Int) ≠ none :=
  ⟨rfl, by decide⟩

/-- C4 (amended): the error handler itself performs no retry or recovery
(it only sets the error state and invokes onError), but the non-optimized
video element is configured with `minLoadRetryCount = 1000`, while the
optimized branch leaves it unset. -/
theorem onError_no_retry_but_video_retry_configured
    (s : PlayerState) (e : LoadError) :
    (onErrorHandler e s).1 = { s with error := true } ∧
    (onErrorHandler e s).2 = [Effect.onError e.error.errorString] ∧
    (standardVideoProps s).minLoadRetryCount = some 1000 ∧
    (optimizedVideoProps s).minLoadRetryCount = none :=
  ⟨rfl, rfl, rfl, rfl⟩

/-- C6: the imperative ref exposes exactly play, pause, stop, skipNext,
skipBack and setFullScreenMode (the fields of `NexenPlayerRef`); play
clears paused, pause sets it, and setFullScreenMode f sets fullscreen to
f and notifies the host with f and the optimize-or-playlist index. -/
theorem playerRef_methods (s : PlayerState) (f : Bool) :
    (nexenPlayerRef.play s).1.paused = false ∧
    (nexenPlayerRef.play s).2 = [] ∧
    (nexenPlayerRef.pause s).1.paused = true ∧
    (nexenPlayerRef.pause s).2 = [] ∧
    (nexenPlayerRef.setFullScreenMode f s).1.fullScreen = f ∧
    (nexenPlayerRef.setFullScreenMode f s).2 =
      [Effect.onFullScreenModeUpdate f (callbackIndex s)] ∧
    nexenPlayerRef.stop = handleStopPlayback ∧
    nexenPlayerRef.skipNext = onSkipNextHandler ∧
    nexenPlayerRef.skipBack = onSkipBackHandler :=
  ⟨rfl, rfl, rfl, rfl, rfl, rfl, rfl, rfl, rfl⟩

/-- C9: the aspect-ratio toggle cycles contain → cover → stretch →
contain, so three applications restore any of the three modes. -/
theorem resizeMode_cycles (m : ResizeMode) :
    handleResizeMode (some ResizeMode.contain) = some ResizeMode.cover ∧
    handleResizeMode (some ResizeMode.cover) = some ResizeMode.stretch ∧
    handleResizeMode (some ResizeMode.stretch) = some ResizeMode.contain ∧
    handleResizeMode (handleResizeMode (handleResizeMode (some m)))
      = some m := by
  cases m <;> decide

/-- C10: rewind moves the seek request and displayed trackTime to
trackTime - 10 with no lower clamp (negative when trackTime < 10), and
fast-forward to trackTime + 10 with no clamp at the total duration. -/
theorem rewind_fastForward_unclamped (s : PlayerState) :
    (onRewind s).1.trackInfo.trackTime = s.trackInfo.trackTime - 10 ∧
    (onRewind s).2 = [Effect.seekVideo (s.trackInfo.trackTime - 10)] ∧
    (s.trackInfo.trackTime < 10 →
      (onRewind s).1.trackInfo.trackTime < 0) ∧
    (onFastForward s).1.trackInfo.trackTime = s.trackInfo.trackTime + 10 ∧
    (onFastForward s).2 = [Effect.seekVideo (s.trackInfo.trackTime + 10)] ∧
    (s.trackInfo.totalTrackTime - 10 < s.trackInfo.trackTime →
      s.trackInfo.totalTrackTime < (onFastForward s).1.trackInfo.trackTime) := by
  refine ⟨rfl, rfl, ?_, rfl, rfl, ?_⟩ <;>
    · intro h
      simp only [onRewind, onFastForward, FORWARD_OR_REWIND_DURATION]
      omega

/-- C10 witness: three seconds into a five-second track, rewind requests
the negative time -7 and fast-forward requests 13, past the duration. -/
theorem rewind_fastForward_unclamped_witness :
    nearStartState.trackInfo.trackTime < 10 ∧
    (onRewind nearStartState).1.trackInfo.trackTime < 0 ∧
    nearStartState.trackInfo.totalTrackTime - 10
      < nearStartState.trackInfo.trackTime ∧
    nearStartState.trackInfo.totalTrackTime
      < (onFastForward nearStartState).1.trackInfo.trackTime :=
  ⟨by decide,
   (rewind_fastForward_unclamped nearStartState).2.2.1 (by decide),
   by decide,
   (rewind_fastForward_unclamped nearStartState).2.2.2.2.2 (by decide)⟩

/-- C5: under `controlHideMode: 'auto'`, showing the main controls arms a
timer of `controlTimeout` milliseconds whose callback hides them; hiding
the controls (under 'auto') and unmounting clear the timer handle; under
`'touch'` no auto-hide timer is ever scheduled and the pending timer is
untouched. -/
theorem autoHide_timer_protocol :
    (∀ (s : PlayerState) (t : Int),
      s.showControl = true →
      s.nexenConfig.controlHideMode = some ControlHideMode.auto →
      s.nexenConfig.controlTimeout = some t →
      Effect.scheduleHideTimer t ∈ (showControlEffectStep s).2 ∧
      (showControlEffectStep s).1.pendingHideTimer = some t ∧
      (controlTimeoutFire s).1.showControl = false) ∧
    (∀ s : PlayerState,
      s.showControl = false →
      s.nexenConfig.controlHideMode = some ControlHideMode.auto →
      s.controlTimeoutRefSet = true →
      Effect.clearHideTimer ∈ (showControlEffectStep s).2 ∧
      (showControlEffectStep s).1.pendingHideTimer = none) ∧
    (∀ s : PlayerState,
      s.controlTimeoutRefSet = true →
      Effect.clearHideTimer ∈ (unmountCleanup s).2 ∧
      (unmountCleanup s).1.pendingHideTimer = none) ∧
    (∀ (s : PlayerState) (t : Int),
      s.nexenConfig.controlHideMode = some ControlHideMode.touch →
      Effect.scheduleHideTimer t ∉ (showControlEffectStep s).2 ∧
      (showControlEffectStep s).1.pendingHideTimer = s.pendingHideTimer) := by
  refine ⟨?_, ?_, ?_, ?_⟩
  · intro s t h1 h2 h3
    by_cases hl : s.nexenConfig.layoutMode = some LayoutMode.advanced <;>
      simp [showControlEffectStep, setControlTimeout, controlTimeoutFire,
            hideMainControl, h1, h2, h3, hl]
  · intro s h1 h2 h3
    by_cases hl : s.nexenConfig.layoutMode = some LayoutMode.advanced <;>
      simp [showControlEffectStep, clearControlTimeout, h1, h2, h3, hl]
  · intro s h
    simp [unmountCleanup, h]
  · intro s t h
    have hne : s.nexenConfig.controlHideMode ≠ some ControlHideMode.auto := by
      simp [h]
    by_cases hl : s.nexenConfig.layoutMode = some LayoutMode.advanced <;>
      by_cases hsc : s.showControl <;>
        simp [showControlEffectStep, clearControlTimeout, h, hne, hl, hsc]

/-- C5 witness: with controls just shown under 'auto' a 5000 ms hide
timer is armed and its callback hides the controls; hiding and unmounting
emit the clear; the default 'touch' state schedules nothing. -/
theorem autoHide_timer_protocol_witness :
    Effect.scheduleHideTimer 5000 ∈ (showControlEffectStep autoShownState).2 ∧
    (controlTimeoutFire autoShownState).1.showControl = false ∧
    Effect.clearHideTimer ∈ (showControlEffectStep autoHiddenState).2 ∧
    Effect.clearHideTimer ∈ (unmountCleanup autoHiddenState).2 ∧
    Effect.scheduleHideTimer 5000 ∉ (showControlEffectStep baseState).2 :=
  ⟨(autoHide_timer_protocol.1 autoShownState 5000 rfl rfl rfl).1,
   (autoHide_timer_protocol.1 autoShownState 5000 rfl rfl rfl).2.2,
   (autoHide_timer_protocol.2.1 autoHiddenState rfl rfl rfl).1,
   (autoHide_timer_protocol.2.2.1 autoHiddenState rfl).1,
   (autoHide_timer_protocol.2.2.2 baseState 5000 rfl).1⟩

/-- C7: every omitted host-config field takes its fixed default (volume
80, brightness 25, playbackSpeed "1.0", muted/repeat/autoPlay false,
controlTimeout 5000, doubleTapTime 300, controlHideMode touch, layoutMode
intermediate, posterResizeMode cover, resizeMode contain, loaderText
"Loading...", errorText "Error...!"), every supplied field overrides it
(both directions captured by `Option.getD`), and the initial paused state
is the negation of the effective autoPlay flag. -/
theorem config_defaults_and_overrides (host : NexenConfig) :
    (initialNexenConfig host).volume = some (host.volume.getD 80) ∧
    (initialNexenConfig host).brightness = some (host.brightness.getD 25) ∧
    (initialNexenConfig host).playbackSpeed
      = some (host.playbackSpeed.getD "1.0") ∧
    (initialNexenConfig host).muted = some (host.muted.getD false) ∧
    (initialNexenConfig host).repeatMode
      = some (host.repeatMode.getD false) ∧
    (initialNexenConfig host).autoPlay = some (host.autoPlay.getD false) ∧
    (initialNexenConfig host).controlTimeout
      = some (host.controlTimeout.getD 5000) ∧
    (initialNexenConfig host).doubleTapTime
      = some (host.doubleTapTime.getD 300) ∧
    (initialNexenConfig host).controlHideMode
      = some (host.controlHideMode.getD ControlHideMode.touch) ∧
    (initialNexenConfig host).layoutMode
      = some (host.layoutMode.getD LayoutMode.intermediate) ∧
    (initialNexenConfig host).posterResizeMode
      = some (host.posterResizeMode.getD ResizeMode.cover) ∧
    (initialNexenConfig host).resizeMode
      = some (host.resizeMode.getD ResizeMode.contain) ∧
    (initialNexenConfig host).loaderText
      = some (host.loaderText.getD "Loading...") ∧
    (initialNexenConfig host).errorText
      = some (host.errorText.getD "Error...!") ∧
    initialPaused (initialNexenConfig host)
      = !((initialNexenConfig host).autoPlay.getD false) ∧
    initialPaused (initialNexenConfig host)
      = !(host.autoPlay.getD false) := by
  simp [initialNexenConfig, mergeConfig, defaultNexenConfig, mergeField_some,
        initialPaused]

/-- C8: with a defined playlist, defined items and a current index within
[0, items.length - 1], skipNext advances exactly when the index is below
the last position (and then stays in bounds and fires onSkipNext with the
new index), skipBack retreats exactly when the index is positive (staying
in bounds and firing onSkipBack with the new index); in the remaining
cases state and callbacks are untouched. -/
theorem skip_preserves_index_bounds
    (s : PlayerState) (pl : PlayList)
    (items : List PlayListItem) (ci : Int)
    (hpl : s.playList = some pl) (hit : pl.items = some items)
    (hci : pl.currentIndex = some ci)
    (h0 : 0 ≤ ci) (h1 : ci ≤ (items.length : Int) - 1) :
    ((ci < (items.length : Int) - 1 →
       (onSkipNextHandler s).1.playList.bind PlayList.currentIndex
         = some (ci + 1) ∧
       (onSkipNextHandler s).2 = [Effect.onSkipNext (ci + 1)] ∧
       0 ≤ ci + 1 ∧ ci + 1 ≤ (items.length : Int) - 1) ∧
     (¬ ci < (items.length : Int) - 1 →
       (onSkipNextHandler s).1 = s ∧ (onSkipNextHandler s).2 = [])) ∧
    ((0 < ci →
       (onSkipBackHandler s).1.playList.bind PlayList.currentIndex
         = some (ci - 1) ∧
       (onSkipBackHandler s).2 = [Effect.onSkipBack (ci - 1)] ∧
       0 ≤ ci - 1 ∧ ci - 1 ≤ (items.length : Int) - 1) ∧
     (¬ 0 < ci →
       (onSkipBackHandler s).1 = s ∧ (onSkipBackHandler s).2 = [])) := by
  constructor
  · constructor
    · intro h
      refine ⟨?_, ?_, by omega, by omega⟩ <;>
        simp [onSkipNextHandler, hpl, hit, hci, h]
    · intro h
      constructor <;> simp [onSkipNextHandler, hpl, hit, hci, h]
  · constructor
    · intro h
      refine ⟨?_, ?_, by omega, by omega⟩ <;>
        simp [onSkipBackHandler, hpl, hci, h]
    · intro h
      constructor <;> simp [onSkipBackHandler, hpl, hci, h]

/-- C8 witness: on a two-item playlist at index 0, skipNext moves to
index 1 and fires onSkipNext 1, while skipBack leaves everything
unchanged and fires nothing. -/
theorem skip_preserves_index_bounds_witness :
    (onSkipNextHandler twoItemPlaylistState).1.playList.bind
      PlayList.currentIndex = some 1 ∧
    (onSkipNextHandler twoItemPlaylistState).2 = [Effect.onSkipNext 1] ∧
    (onSkipBackHandler twoItemPlaylistState).1 = twoItemPlaylistState ∧
    (onSkipBackHandler twoItemPlaylistState).2 = [] :=
  have h := skip_preserves_index_bounds twoItemPlaylistState
    { items := some [⟨"a.mp4"⟩, ⟨"b.mp4"⟩], currentIndex := some 0 }
    [⟨"a.mp4"⟩, ⟨"b.mp4"⟩] 0 rfl rfl rfl (by decide) (by decide)
  ⟨(h.1.1 (by decide)).1, (h.1.1 (by decide)).2.1,
   (h.2.2 (by decide)).1, (h.2.2 (by decide)).2⟩
